import Mathlib

/-!
Shallow embedding of the E-commerce Express server (GroceryBucket).

The repository holds three revisions of the same server:
* `src/unnamed/part_000` — the current server (env-var gate, Razorpay
  order creation and payment verification, auth-guarded profile,
  logout with error reporting);
* `src/index.js` and `src/unnamed/part_001` — earlier revisions of the
  auth part (no Razorpay; `index.js` lacks the auth guard on `/profile`
  and ignores logout errors).

External collaborators (Node's `crypto.createHmac`, the Razorpay SDK,
`Date.now()`, `process.env`) are modelled as explicit parameters: the
HMAC-SHA256-hex primitive is an abstract keyed function
`String → String → String`, the clock a `Nat`, the environment a
`String → Option String` (a variable that is unset maps to `none`).
JSON numbers are modelled as exact rationals `ℚ`.
-/

/-- JavaScript truthiness of an optional string field of a JSON body:
`undefined` and the empty string are falsy, every other string truthy. -/
def jsTruthyStr : Option String → Bool
  | none => false
  | some s => s != ""

/-- JavaScript truthiness of an optional numeric field of a JSON body:
`undefined` and `0` are falsy. -/
def jsTruthyNum : Option ℚ → Bool
  | none => false
  | some a => a != 0

/-! ### Payment verification — POST /api/razorpay/verify-payment
(src/unnamed/part_000, lines 266–317) -/

/-- Request body of the verify-payment route; each field is `none` when
the JSON key is absent. -/
structure VerifyBody where
  razorpay_order_id : Option String
  razorpay_payment_id : Option String
  razorpay_signature : Option String
  deriving DecidableEq

/-- JSON response of the verify-payment route: HTTP status plus the
keys the handler may emit (`none` = key absent from the body). -/
structure VerifyResp where
  status : Nat
  success : Bool
  message : Option String
  payment_id : Option String
  order_id : Option String
  error : Option String
  deriving DecidableEq

/-- 400 response when a verification parameter is missing
(part_000 lines 276–279). -/
def missingParamsResp : VerifyResp :=
  VerifyResp.mk 400 false none none none (some "Missing payment verification parameters")

/-- 400 response on signature mismatch (part_000 lines 304–307). -/
def invalidSignResp : VerifyResp :=
  VerifyResp.mk 400 false none none none (some "Invalid payment signature")

/-- 200 response on successful verification (part_000 lines 296–301). -/
def verifiedResp (pid oid : String) : VerifyResp :=
  VerifyResp.mk 200 true (some "Payment verified successfully") (some pid) (some oid) none

/-- The verify-payment handler (part_000 lines 266–317).
`hmacSha256Hex key msg` stands for Node's
`crypto.createHmac('sha256', key).update(msg).digest('hex')`;
`keySecret` is `process.env.RAZOR_PAY_KEY_SECRET`. -/
def verifyPaymentHandler (hmacSha256Hex : String → String → String)
    (keySecret : String) (b : VerifyBody) : VerifyResp :=
  if !jsTruthyStr b.razorpay_order_id || !jsTruthyStr b.razorpay_payment_id
      || !jsTruthyStr b.razorpay_signature then
    missingParamsResp
  else
    let oid := b.razorpay_order_id.getD ""
    let pid := b.razorpay_payment_id.getD ""
    let sign := oid ++ "|" ++ pid
    let expectedSign := hmacSha256Hex keySecret sign
    if b.razorpay_signature.getD "" == expectedSign then
      verifiedResp pid oid
    else
      invalidSignResp

/-- On a body whose three fields are present and non-empty, the handler
reduces to the signature comparison. -/
theorem verifyPaymentHandler_eq_compare (f : String → String → String)
    (k oid pid sig : String) (ho : oid ≠ "") (hp : pid ≠ "") (hs : sig ≠ "") :
    verifyPaymentHandler f k ⟨some oid, some pid, some sig⟩ =
      if sig = f k (oid ++ "|" ++ pid) then verifiedResp pid oid else invalidSignResp := by
  rw [verifyPaymentHandler]
  simp [jsTruthyStr, ho, hp, hs]

/-- C1: for non-empty orderId, paymentId and signature, the handler
returns the Verified success response iff the supplied signature equals
the hex HMAC-SHA256 of `orderId ++ "|" ++ paymentId` under the gateway
secret; any differing signature yields the Rejected response. The
verdict is deterministic because the handler is a pure function of its
inputs. -/
theorem C1_verify_accepts_iff (hmacSha256Hex : String → String → String)
    (keySecret oid pid sig : String)
    (ho : oid ≠ "") (hp : pid ≠ "") (hs : sig ≠ "") :
    (verifyPaymentHandler hmacSha256Hex keySecret ⟨some oid, some pid, some sig⟩
        = verifiedResp pid oid
      ↔ sig = hmacSha256Hex keySecret (oid ++ "|" ++ pid))
    ∧ (sig ≠ hmacSha256Hex keySecret (oid ++ "|" ++ pid) →
        verifyPaymentHandler hmacSha256Hex keySecret ⟨some oid, some pid, some sig⟩
          = invalidSignResp) := by
  rw [verifyPaymentHandler_eq_compare hmacSha256Hex keySecret oid pid sig ho hp hs]
  by_cases hsig : sig = hmacSha256Hex keySecret (oid ++ "|" ++ pid)
  · simp [hsig]
  · simp [hsig, invalidSignResp, verifiedResp]

/-- Witness for C1 at a concrete input: with the identity-like HMAC
stand-in, signature "a|b" for orderId "a", paymentId "b" is accepted. -/
theorem C1_verify_accepts_iff_witness :
    verifyPaymentHandler (fun _ m => m) "k" ⟨some "a", some "b", some "a|b"⟩
      = verifiedResp "b" "a" :=
  (C1_verify_accepts_iff (fun _ m => m) "k" "a" "b" "a|b"
    (by decide) (by decide) (by decide)).1.mpr rfl

/-- C2: a verification request for orderId "order_abc", paymentId
"pay_xyz" whose signature is exactly the hex HMAC-SHA256 of
"order_abc|pay_xyz" under the gateway secret gets HTTP 200 with
success true and both ids echoed back (JSON keys `payment_id` and
`order_id`). The hypothesis records that a hex digest is non-empty. -/
theorem C2_verify_scenario (hmacSha256Hex : String → String → String)
    (keySecret : String)
    (hne : hmacSha256Hex keySecret "order_abc|pay_xyz" ≠ "") :
    verifyPaymentHandler hmacSha256Hex keySecret
        ⟨some "order_abc", some "pay_xyz",
          some (hmacSha256Hex keySecret "order_abc|pay_xyz")⟩
      = verifiedResp "pay_xyz" "order_abc"
    ∧ (verifiedResp "pay_xyz" "order_abc").status = 200
    ∧ (verifiedResp "pay_xyz" "order_abc").success = true
    ∧ (verifiedResp "pay_xyz" "order_abc").payment_id = some "pay_xyz"
    ∧ (verifiedResp "pay_xyz" "order_abc").order_id = some "order_abc" := by
  refine ⟨?_, rfl, rfl, rfl, rfl⟩
  rw [verifyPaymentHandler_eq_compare hmacSha256Hex keySecret "order_abc" "pay_xyz"
    (hmacSha256Hex keySecret "order_abc|pay_xyz") (by decide) (by decide) hne]
  simp

/-- Witness for C2 with a concrete stand-in digest function. -/
theorem C2_verify_scenario_witness :
    verifyPaymentHandler (fun _ _ => "digest") "k"
        ⟨some "order_abc", some "pay_xyz", some "digest"⟩
      = verifiedResp "pay_xyz" "order_abc" :=
  (C2_verify_scenario (fun _ _ => "digest") "k" (by decide)).1

/-- C6: if any of the three verification fields is absent from the
body, the handler answers the 400 MissingParameters response, and the
answer does not depend on the HMAC primitive or the secret, i.e. no
signature is computed or compared. -/
theorem C6_verify_missing_fields (hmac1 hmac2 : String → String → String)
    (k1 k2 : String) (b : VerifyBody)
    (h : b.razorpay_order_id = none ∨ b.razorpay_payment_id = none
      ∨ b.razorpay_signature = none) :
    verifyPaymentHandler hmac1 k1 b = missingParamsResp
    ∧ verifyPaymentHandler hmac1 k1 b = verifyPaymentHandler hmac2 k2 b := by
  obtain ⟨oid, pid, sig⟩ := b
  rcases h with h | h | h <;> subst h <;>
    simp_all [verifyPaymentHandler, jsTruthyStr]

/-- Witness for C6: a body with no signature field is rejected as
missing parameters. -/
theorem C6_verify_missing_fields_witness :
    verifyPaymentHandler (fun _ m => m) "k" ⟨some "o", some "p", none⟩
      = missingParamsResp :=
  (C6_verify_missing_fields (fun _ m => m) (fun _ _ => "") "k" "s"
    ⟨some "o", some "p", none⟩ (Or.inr (Or.inr rfl))).1

/-- C10: the handler tests the three fields for JavaScript falsiness,
so a field supplied as the empty string is treated like a missing one:
the response is the 400 MissingParameters response and is independent
of the HMAC primitive and secret (the comparison is never reached). -/
theorem C10_verify_empty_string_fields (hmac1 hmac2 : String → String → String)
    (k1 k2 : String) (b : VerifyBody)
    (h : b.razorpay_order_id = some "" ∨ b.razorpay_payment_id = some ""
      ∨ b.razorpay_signature = some "") :
    verifyPaymentHandler hmac1 k1 b = missingParamsResp
    ∧ verifyPaymentHandler hmac1 k1 b = verifyPaymentHandler hmac2 k2 b := by
  obtain ⟨oid, pid, sig⟩ := b
  rcases h with h | h | h <;> subst h <;>
    simp_all [verifyPaymentHandler, jsTruthyStr]

/-- Witness for C10: an empty-string signature with both ids present is
classified as missing parameters. -/
theorem C10_verify_empty_string_fields_witness :
    verifyPaymentHandler (fun _ m => m) "k" ⟨some "o", some "p", some ""⟩
      = missingParamsResp :=
  (C10_verify_empty_string_fields (fun _ m => m) (fun _ _ => "x") "k" "s"
    ⟨some "o", some "p", some ""⟩ (Or.inr (Or.inr rfl))).1

/-! ### Order creation — POST /api/razorpay/create-order
(src/unnamed/part_000, lines 226–263) -/

/-- Request body of the create-order route. Amounts are JSON numbers,
modelled as exact rationals. -/
structure CreateOrderBody where
  amount : Option ℚ
  currency : Option String
  receipt : Option String
  deriving DecidableEq

/-- The options object sent to `razorpayInstance.orders.create`
(part_000 lines 239–244). -/
structure OrderOptions where
  amount : ℚ
  currency : String
  receipt : String
  payment_capture : Nat
  deriving DecidableEq

/-- Outcome of the create-order handler up to the gateway boundary:
either the 400 rejection sent without contacting the gateway, or the
call to the gateway with the options it is given. -/
inductive CreateOrderStep where
  | badRequest (status : Nat) (success : Bool) (error : String)
  | callGateway (options : OrderOptions)
  deriving DecidableEq

/-- The receipt actually used: the supplied one when truthy, otherwise
the generated time-based reference (part_000 line 242, with `now`
standing for `Date.now()`). -/
def receiptOf (receipt : Option String) (now : Nat) : String :=
  if jsTruthyStr receipt then receipt.getD "" else "receipt_" ++ toString now

/-- The create-order handler (part_000 lines 226–247): currency
defaults to "INR" when the field is absent; `!amount || amount <= 0`
answers 400 "Invalid amount"; otherwise the gateway is called with the
amount multiplied by 100 and payment_capture 1. -/
def createOrderHandler (now : Nat) (b : CreateOrderBody) : CreateOrderStep :=
  if jsTruthyNum b.amount = false ∨ b.amount.getD 0 ≤ 0 then
    .badRequest 400 false "Invalid amount"
  else
    .callGateway
      ⟨b.amount.getD 0 * 100, b.currency.getD "INR", receiptOf b.receipt now, 1⟩

/-- A positive amount always reaches the gateway call with the
multiplied amount, defaulted currency and receipt, and capture mode 1. -/
theorem createOrder_callGateway (now : Nat) (b : CreateOrderBody) (a : ℚ)
    (ha : b.amount = some a) (hpos : 0 < a) :
    createOrderHandler now b
      = .callGateway ⟨a * 100, b.currency.getD "INR", receiptOf b.receipt now, 1⟩ := by
  have hcond : ¬(jsTruthyNum b.amount = false ∨ b.amount.getD 0 ≤ 0) := by
    rw [ha]
    simp [jsTruthyNum, ne_of_gt hpos, not_le, hpos]
  rw [createOrderHandler, if_neg hcond, ha, Option.getD_some]

/-- C4: a missing amount, or an amount at most 0, is answered with the
400 Invalid-amount rejection, and no gateway call is made. -/
theorem C4_create_order_invalid_amount (now : Nat) (b : CreateOrderBody)
    (h : b.amount = none ∨ ∃ a : ℚ, b.amount = some a ∧ a ≤ 0) :
    createOrderHandler now b = .badRequest 400 false "Invalid amount"
    ∧ ∀ opts : OrderOptions, createOrderHandler now b ≠ .callGateway opts := by
  have hcond : jsTruthyNum b.amount = false ∨ b.amount.getD 0 ≤ 0 := by
    rcases h with h | ⟨a, ha, hle⟩
    · exact Or.inl (by simp [h, jsTruthyNum])
    · exact Or.inr (by simp [ha, hle])
  rw [createOrderHandler, if_pos hcond]
  exact ⟨rfl, fun opts hne => CreateOrderStep.noConfusion hne⟩

/-- Witness for C4 at amount 0 (falsy, and at most 0). -/
theorem C4_create_order_invalid_amount_witness :
    createOrderHandler 0 ⟨some 0, none, none⟩
      = CreateOrderStep.badRequest 400 false "Invalid amount" :=
  (C4_create_order_invalid_amount 0 ⟨some 0, none, none⟩
    (Or.inr ⟨0, rfl, le_refl 0⟩)).1

/-- C5: a positive amount leads to a gateway call whose options carry
the amount multiplied by 100, the supplied currency (defaulting to
"INR" when absent), the receipt (supplied or generated) and
payment_capture 1; in particular amount 500 with currency "INR" is
forwarded as 50000 paise with currency "INR". -/
theorem C5_create_order_valid (now : Nat) (b : CreateOrderBody) (a : ℚ)
    (ha : b.amount = some a) (hpos : 0 < a) :
    createOrderHandler now b
      = .callGateway ⟨a * 100, b.currency.getD "INR", receiptOf b.receipt now, 1⟩
    ∧ createOrderHandler 7 ⟨some 500, some "INR", none⟩
      = .callGateway ⟨50000, "INR", "receipt_7", 1⟩ := by
  refine ⟨createOrder_callGateway now b a ha hpos, ?_⟩
  rw [createOrder_callGateway 7 ⟨some 500, some "INR", none⟩ 500 rfl (by norm_num),
    show (500 : ℚ) * 100 = 50000 by norm_num]
  rfl

/-- Witness for C5: the general part applied at amount 500; the
concrete 50000-paise scenario is the closed second component. -/
theorem C5_create_order_valid_witness :
    createOrderHandler 7 ⟨some 500, some "INR", none⟩
      = CreateOrderStep.callGateway ⟨50000, "INR", "receipt_7", 1⟩ :=
  (C5_create_order_valid 7 ⟨some 500, some "INR", none⟩ 500 rfl (by decide)).2

/-- C9: no integrality or numeric-type check is made on the amount:
every positive rational amount is forwarded multiplied by 100 and
unrounded; in particular amount 1/2 (0.5) is forwarded as 50 and
amount 5/1000 (0.005) is forwarded as the fractional minor-unit
amount 1/2 (0.5). -/
theorem C9_create_order_no_rounding (now : Nat) (b : CreateOrderBody) (a : ℚ)
    (ha : b.amount = some a) (hpos : 0 < a) :
    (∃ opts : OrderOptions, createOrderHandler now b = .callGateway opts
        ∧ opts.amount = a * 100)
    ∧ createOrderHandler 3 ⟨some (1/2), none, none⟩
        = .callGateway ⟨50, "INR", "receipt_3", 1⟩
    ∧ createOrderHandler 3 ⟨some (5/1000), none, none⟩
        = .callGateway ⟨1/2, "INR", "receipt_3", 1⟩ := by
  refine ⟨⟨_, createOrder_callGateway now b a ha hpos, rfl⟩, ?_, ?_⟩
  · rw [createOrder_callGateway 3 ⟨some (1/2), none, none⟩ (1/2) rfl (by norm_num),
      show (1 : ℚ) / 2 * 100 = 50 by norm_num]
    rfl
  · rw [createOrder_callGateway 3 ⟨some (5/1000), none, none⟩ (5/1000) rfl (by norm_num),
      show (5 : ℚ) / 1000 * 100 = 1/2 by norm_num]
    rfl

/-- Witness for C9 at the non-integer amount 1/2. -/
theorem C9_create_order_no_rounding_witness :
    ∃ opts : OrderOptions,
      createOrderHandler 3 ⟨some (1/2), none, none⟩ = CreateOrderStep.callGateway opts
      ∧ opts.amount = 1/2 * 100 :=
  (C9_create_order_no_rounding 3 ⟨some (1/2), none, none⟩ (1/2) rfl one_half_pos).1

/-! ### Startup configuration gate (src/unnamed/part_000, lines 13–70,
342–345) -/

/-- The fixed list of required environment variables
(part_000 lines 16–23). -/
def requiredEnvVars : List String :=
  ["GOOGLE_CLIENT_ID", "GOOGLE_CLIENT_SECRET", "GOOGLE_CALLBACK_URL",
   "SESSION_SECRET", "RAZOR_PAY_KEY_ID", "RAZOR_PAY_KEY_SECRET"]

/-- `requiredEnvVars.filter(envVar => !process.env[envVar])`
(part_000 line 25): the complete list of required names whose value is
absent or falsy in the environment. -/
def missingEnvVars (env : String → Option String) : List String :=
  requiredEnvVars.filter (fun v => !jsTruthyStr (env v))

/-- How far the process gets at startup: it either exits (with the
exit code, and for the env-var gate the reported list of missing
names) before creating the HTTP server, or reaches `app.listen`. -/
inductive StartupResult where
  | exitMissingEnv (code : Nat) (missing : List String)
  | exitStoreRequired (code : Nat)
  | listening
  deriving DecidableEq

/-- The startup sequence of part_000 (lines 25–70 and 342): exit 1
reporting the missing names if any required variable is falsy;
otherwise, in production mode, exit 1 if the MongoDB session store is
absent (no MONGO_URI) or fails to initialize
(`mongoStoreCreateOk = false` stands for `MongoStore.create` throwing);
otherwise reach `app.listen`. -/
def startup (env : String → Option String) (mongoStoreCreateOk : Bool) :
    StartupResult :=
  if missingEnvVars env ≠ [] then
    .exitMissingEnv 1 (missingEnvVars env)
  else if jsTruthyStr (env "MONGO_URI") then
    if mongoStoreCreateOk then .listening
    else if env "NODE_ENV" = some "production" then .exitStoreRequired 1
    else .listening
  else if env "NODE_ENV" = some "production" then .exitStoreRequired 1
  else .listening

/-- C3: if any required configuration value is absent, startup exits
with the non-zero code 1 and reports exactly the required names that
are missing, and the process never reaches `app.listen`. -/
theorem C3_startup_missing_env (env : String → Option String)
    (mongoStoreCreateOk : Bool)
    (h : ∃ v ∈ requiredEnvVars, env v = none) :
    startup env mongoStoreCreateOk = .exitMissingEnv 1 (missingEnvVars env)
    ∧ (∀ v, v ∈ missingEnvVars env ↔ v ∈ requiredEnvVars ∧ jsTruthyStr (env v) = false)
    ∧ (1 : Nat) ≠ 0
    ∧ startup env mongoStoreCreateOk ≠ .listening := by
  obtain ⟨v, hv, hnone⟩ := h
  have hmem : v ∈ missingEnvVars env := by
    rw [missingEnvVars, List.mem_filter]
    exact ⟨hv, by rw [hnone]; rfl⟩
  have hne : missingEnvVars env ≠ [] := fun hnil => by simp [hnil] at hmem
  have hstep : startup env mongoStoreCreateOk
      = .exitMissingEnv 1 (missingEnvVars env) := by
    rw [startup, if_pos hne]
  refine ⟨hstep, ?_, one_ne_zero, ?_⟩
  · intro w
    rw [missingEnvVars, List.mem_filter]
    simp
  · rw [hstep]
    exact fun hc => StartupResult.noConfusion hc

/-- An environment in which only SESSION_SECRET is unset. -/
def envNoSessionSecret : String → Option String :=
  fun v => if v = "SESSION_SECRET" then none else some "x"

/-- Witness for C3: with only SESSION_SECRET unset the process exits
with code 1 before listening, reporting exactly ["SESSION_SECRET"]. -/
theorem C3_startup_missing_env_witness :
    startup envNoSessionSecret true
      = StartupResult.exitMissingEnv 1 (missingEnvVars envNoSessionSecret)
    ∧ startup envNoSessionSecret true ≠ StartupResult.listening
    ∧ missingEnvVars envNoSessionSecret = ["SESSION_SECRET"] :=
  ⟨(C3_startup_missing_env envNoSessionSecret true ⟨"SESSION_SECRET", by decide, rfl⟩).1,
   (C3_startup_missing_env envNoSessionSecret true ⟨"SESSION_SECRET", by decide, rfl⟩).2.2.2,
   by decide⟩

/-! ### Profile and logout routes.
Current server: src/unnamed/part_000 lines 146–214 (auth-guarded
profile, logout reporting errors with a 500). Legacy server:
src/index.js lines 51–76 (no auth guard on /profile — `req.user` is
dereferenced unconditionally — and a logout callback that ignores the
error argument). -/

/-- The identity attached to a session by passport, as read by the
profile handlers (`displayName`, `emails`, `photos`; each may be
absent on the Google profile object). -/
structure SessionUser where
  displayName : Option String
  emails : Option (List String)
  photos : Option (List String)
  deriving DecidableEq

/-- Response of a profile route: a redirect, the profile HTML (whose
rendering is outside the modelled core; we record the identity it
shows), or an exception escaping the handler (a TypeError from
dereferencing undefined). -/
inductive ProfileResponse where
  | redirect (location : String)
  | profileHtml (u : SessionUser)
  | thrown
  deriving DecidableEq

/-- GET /profile of the current server (part_000 lines 146–203):
`req.isAuthenticated()` guards the render; anonymous requests are
redirected to "/". `user.emails[0].value` on a present-but-empty
array throws, mirrored by `thrown`. -/
def profileHandler (reqUser : Option SessionUser) : ProfileResponse :=
  match reqUser with
  | none => .redirect "/"
  | some u =>
    match u.emails, u.photos with
    | some [], _ => .thrown
    | _, some [] => .thrown
    | _, _ => .profileHtml u

/-- GET /profile of the legacy server (src/index.js lines 51–64): no
authentication check; `user.displayName`, `user.emails[0].value` and
`user.photos[0].value` are dereferenced unconditionally, so an
anonymous request (req.user undefined) throws a TypeError, as does a
profile without a non-empty emails or photos array. -/
def profileHandlerLegacy (reqUser : Option SessionUser) : ProfileResponse :=
  match reqUser with
  | none => .thrown
  | some u =>
    match u.emails, u.photos with
    | some (_ :: _), some (_ :: _) => .profileHtml u
    | _, _ => .thrown

/-- Response of the logout route: a redirect, or a 500 with a body. -/
inductive LogoutResponse where
  | redirect (location : String)
  | serverError (code : Nat) (body : String)
  deriving DecidableEq

/-- GET /logout of the current server (part_000 lines 206–214):
`clearFailed` is whether `req.logout` passes an error to its callback;
on error the handler answers 500 "Error logging out", otherwise it
redirects to "/". -/
def logoutHandler (clearFailed : Bool) : LogoutResponse :=
  if clearFailed then .serverError 500 "Error logging out"
  else .redirect "/"

/-- GET /logout of the legacy server (src/index.js lines 71–76, and
identically src/unnamed/part_001 lines 102–106): the callback ignores
its error argument and always redirects to "/". -/
def logoutHandlerLegacy (_clearFailed : Bool) : LogoutResponse :=
  .redirect "/"

/-- C7: in the current server an anonymous /profile request is
redirected to "/" and the profile HTML is rendered only for sessions
carrying an identity; but in the legacy src/index.js the handler has
no authentication check and an anonymous request throws a TypeError
(surfacing as an error response), not a redirect and not the HTML. -/
theorem C7_profile_anonymous :
    profileHandler none = ProfileResponse.redirect "/"
    ∧ (∀ u : SessionUser, profileHandler none ≠ ProfileResponse.profileHtml u)
    ∧ profileHandlerLegacy none = ProfileResponse.thrown
    ∧ profileHandlerLegacy none ≠ ProfileResponse.redirect "/"
    ∧ (∀ u : SessionUser, profileHandlerLegacy none ≠ ProfileResponse.profileHtml u) := by
  refine ⟨rfl, ?_, rfl, ?_, ?_⟩
  · intro u hc
    rw [profileHandler] at hc
    exact ProfileResponse.noConfusion hc
  · intro hc
    rw [profileHandlerLegacy] at hc
    exact ProfileResponse.noConfusion hc
  · intro u hc
    rw [profileHandlerLegacy] at hc
    exact ProfileResponse.noConfusion hc

/-- C8: in the current server a failing identity-clear on logout is
answered with a 500 and a successful one with a redirect to "/"; but
the legacy src/index.js (and part_001) logout callback ignores the
error and redirects even when clearing failed — the error is silently
swallowed, never reported as a 500. -/
theorem C8_logout_error_reporting :
    logoutHandler true = LogoutResponse.serverError 500 "Error logging out"
    ∧ logoutHandler false = LogoutResponse.redirect "/"
    ∧ logoutHandlerLegacy true = LogoutResponse.redirect "/"
    ∧ logoutHandlerLegacy true ≠ LogoutResponse.serverError 500 "Error logging out" := by
  refine ⟨rfl, rfl, rfl, ?_⟩
  intro hc
  rw [logoutHandlerLegacy] at hc
  exact LogoutResponse.noConfusion hc
